import Mathlib

/-!
Verification of the 2D arcade game engine (`src/lib/gameEngine.ts`).

The engine's per-tick logic (`update` = `updatePlayer`; `updateEnemies`;
`checkCollisions`; `checkWinCondition`), its session lifecycle
(`start` / `stop` / `restart` / `initializeGame`) and the renderer's
background pass (`drawBackground`) are embedded shallowly below.
JavaScript numbers are modelled as real numbers; the observer callbacks
(`onScoreChange`, `onLivesChange`, `onGameWin`, `onGameOver`) are modelled
as an event trace emitted by each operation, in the order the code fires
them.  A `forEach` loop that threads mutation of `this` through its
iterations is modelled as structural recursion over the list carrying that
state; note that a `return` inside a JavaScript `forEach` callback only
ends the current iteration, which the recursion reproduces faithfully.
-/

noncomputable section

namespace GameForge

/-- The player entity (`this.player`). -/
structure Player where
  x : ℝ
  y : ℝ
  size : ℝ
  color : String

/-- An enemy entity, with a velocity (`speedX`, `speedY`). -/
structure Enemy where
  x : ℝ
  y : ℝ
  size : ℝ
  color : String
  speedX : ℝ
  speedY : ℝ

/-- A collectible entity, with its point value and `collected` flag. -/
structure Collectible where
  x : ℝ
  y : ℝ
  size : ℝ
  color : String
  points : ℝ
  collected : Bool

/-- A static axis-aligned rectangular obstacle. -/
structure Obstacle where
  x : ℝ
  y : ℝ
  width : ℝ
  height : ℝ
  color : String

/-- A scenario collectible descriptor (no `collected` flag yet),
as produced by the generator (`GameData.collectibles`). -/
structure CollectibleData where
  x : ℝ
  y : ℝ
  size : ℝ
  color : String
  points : ℝ

/-- The scenario player descriptor (`GameData.player`). -/
structure PlayerData where
  x : ℝ
  y : ℝ
  color : String
  size : ℝ

/-- The immutable scenario (`GameData` from `gameGenerator.ts`): initial
entity layout and arena dimensions.  The HTML canvas dimensions are
integers.  Note that `GameData` carries no theme-identifier field. -/
structure GameData where
  player : PlayerData
  enemies : List Enemy
  collectibles : List CollectibleData
  obstacles : List Obstacle
  canvasWidth : ℕ
  canvasHeight : ℕ

/-- One observer notification, in the order the engine fires callbacks. -/
inductive GameEvent where
  | scoreChange (score : ℝ)
  | livesChange (lives : ℤ)
  | gameWin
  | gameOver

/-- The mutable per-session simulation state of the engine. -/
structure GameState where
  player : Player
  enemies : List Enemy
  collectibles : List Collectible
  obstacles : List Obstacle
  score : ℝ
  lives : ℤ
  isRunning : Bool

/-- `this.playerSpeed`. -/
def playerSpeed : ℝ := 5

/-- Truthiness of `this.keys[k]`: the key `k` is currently held. -/
def keyDown (ks : List String) (k : String) : Prop := k ∈ ks

instance (ks : List String) (k : String) : Decidable (keyDown ks k) := by
  unfold keyDown; infer_instance

/-- `checkCircleCollision`: Euclidean distance between the two centers is
less than half the sum of the two sizes. -/
def checkCircleCollision (x1 y1 s1 x2 y2 s2 : ℝ) : Prop :=
  Real.sqrt ((x1 - x2) * (x1 - x2) + (y1 - y2) * (y1 - y2)) < (s1 + s2) / 2

instance (x1 y1 s1 x2 y2 s2 : ℝ) :
    Decidable (checkCircleCollision x1 y1 s1 x2 y2 s2) := by
  unfold checkCircleCollision; infer_instance

/-- `checkRectCircleCollision`: squared distance from the circle center to
the closest point of the rectangle (`closestX`, `closestY` in the source)
is less than the squared radius. -/
def checkRectCircleCollision (r : Obstacle) (cx cy csize : ℝ) : Prop :=
  (cx - max r.x (min cx (r.x + r.width))) * (cx - max r.x (min cx (r.x + r.width))) +
      (cy - max r.y (min cy (r.y + r.height))) * (cy - max r.y (min cy (r.y + r.height))) <
    (csize / 2) * (csize / 2)

instance (r : Obstacle) (cx cy csize : ℝ) :
    Decidable (checkRectCircleCollision r cx cy csize) := by
  unfold checkRectCircleCollision; infer_instance

/-- The four key-driven moves of `updatePlayer`, each clamped to the arena
(`w`, `h` are `canvas.width`, `canvas.height`). -/
def movePlayer (w h : ℝ) (ks : List String) (p : Player) : Player :=
  let p :=
    if keyDown ks "ArrowLeft" ∨ keyDown ks "a" ∨ keyDown ks "A" then
      { p with x := max (p.size / 2) (p.x - playerSpeed) } else p
  let p :=
    if keyDown ks "ArrowRight" ∨ keyDown ks "d" ∨ keyDown ks "D" then
      { p with x := min (w - p.size / 2) (p.x + playerSpeed) } else p
  let p :=
    if keyDown ks "ArrowUp" ∨ keyDown ks "w" ∨ keyDown ks "W" then
      { p with y := max (p.size / 2) (p.y - playerSpeed) } else p
  let p :=
    if keyDown ks "ArrowDown" ∨ keyDown ks "s" ∨ keyDown ks "S" then
      { p with y := min (h - p.size / 2) (p.y + playerSpeed) } else p
  p

/-- The obstacle-push branch of `updatePlayer`: on overlap, place the
player `size/2 + 10` units from the obstacle center along the
center-to-player vector; a zero-length vector leaves the player unmoved. -/
def pushFromObstacle (ob : Obstacle) (p : Player) : Player :=
  if checkRectCircleCollision ob p.x p.y p.size then
    let centerX := ob.x + ob.width / 2
    let centerY := ob.y + ob.height / 2
    let dx := p.x - centerX
    let dy := p.y - centerY
    let distance := Real.sqrt (dx * dx + dy * dy)
    if distance > 0 then
      let pushDistance := p.size / 2 + 10
      { p with x := centerX + dx / distance * pushDistance,
               y := centerY + dy / distance * pushDistance }
    else p
  else p

/-- `updatePlayer`: key-driven movement, then the obstacle loop (each
obstacle sees the position left by the previous one). -/
def updatePlayer (w h : ℝ) (ks : List String) (obstacles : List Obstacle)
    (p : Player) : Player :=
  obstacles.foldl (fun q ob => pushFromObstacle ob q) (movePlayer w h ks p)

/-- One enemy's motion in `updateEnemies`: advance by the velocity, negate
a velocity component on wall contact, then clamp the position. -/
def moveEnemy (w h : ℝ) (e : Enemy) : Enemy :=
  let x := e.x + e.speedX
  let y := e.y + e.speedY
  let sx := if x ≤ e.size / 2 ∨ x ≥ w - e.size / 2 then -e.speedX else e.speedX
  let sy := if y ≤ e.size / 2 ∨ y ≥ h - e.size / 2 then -e.speedY else e.speedY
  { e with
    x := max (e.size / 2) (min (w - e.size / 2) x),
    y := max (e.size / 2) (min (h - e.size / 2) y),
    speedX := sx, speedY := sy }

/-- `updateEnemies`. -/
def updateEnemies (w h : ℝ) (es : List Enemy) : List Enemy :=
  es.map (moveEnemy w h)

/-- The enemy-push branch of `checkCollisions`: place the player 50 units
from the enemy along the enemy-to-player vector; a zero-length vector
leaves the player unmoved. -/
def pushFromEnemy (e : Enemy) (p : Player) : Player :=
  let dx := p.x - e.x
  let dy := p.y - e.y
  let distance := Real.sqrt (dx * dx + dy * dy)
  if distance > 0 then
    { p with x := e.x + dx / distance * 50, y := e.y + dy / distance * 50 }
  else p

/-- Result of the player-enemy half of `checkCollisions`. -/
structure EnemyPhaseResult where
  player : Player
  lives : ℤ
  running : Bool
  events : List GameEvent

/-- The `enemies.forEach` loop of `checkCollisions`.  On a hit the lives
counter is decremented and `onLivesChange` fires; if lives is then ≤ 0 the
running flag is cleared, `onGameOver` fires and the callback returns —
which in JavaScript only skips the push for this enemy, the loop itself
continues with the next enemy.  Otherwise the player is pushed away and
the loop continues from the pushed position. -/
def enemyPhase : List Enemy → Player → ℤ → Bool → EnemyPhaseResult
  | [], p, lives, run => ⟨p, lives, run, []⟩
  | e :: rest, p, lives, run =>
    if checkCircleCollision p.x p.y p.size e.x e.y e.size then
      if lives - 1 ≤ 0 then
        let r := enemyPhase rest p (lives - 1) false
        ⟨r.player, r.lives, r.running,
          GameEvent.livesChange (lives - 1) :: GameEvent.gameOver :: r.events⟩
      else
        let r := enemyPhase rest (pushFromEnemy e p) (lives - 1) run
        ⟨r.player, r.lives, r.running,
          GameEvent.livesChange (lives - 1) :: r.events⟩
    else
      enemyPhase rest p lives run

/-- Result of the player-collectible half of `checkCollisions`. -/
structure CollectPhaseResult where
  collectibles : List Collectible
  score : ℝ
  events : List GameEvent

/-- The `collectibles.forEach` loop of `checkCollisions`: every uncollected
collectible overlapping the player is marked collected, its points are
added to the score, and `onScoreChange` fires with the new score. -/
def collectPhase (p : Player) : List Collectible → ℝ → CollectPhaseResult
  | [], score => ⟨[], score, []⟩
  | c :: rest, score =>
    if c.collected = false ∧ checkCircleCollision p.x p.y p.size c.x c.y c.size then
      let r := collectPhase p rest (score + c.points)
      ⟨{ c with collected := true } :: r.collectibles, r.score,
        GameEvent.scoreChange (score + c.points) :: r.events⟩
    else
      let r := collectPhase p rest score
      ⟨c :: r.collectibles, r.score, r.events⟩

/-- One call of `update`: `updatePlayer`; `updateEnemies`;
`checkCollisions` (both halves); `checkWinCondition`.  The win check runs
unconditionally and reports a win whenever every collectible is collected
(vacuously so for an empty collectible list).  Returns the new state and
the trace of observer callbacks fired, in order. -/
def update (w h : ℝ) (ks : List String) (s : GameState) :
    GameState × List GameEvent :=
  let p1 := updatePlayer w h ks s.obstacles s.player
  let es2 := updateEnemies w h s.enemies
  let r1 := enemyPhase es2 p1 s.lives s.isRunning
  let r2 := collectPhase r1.player s.collectibles s.score
  let allCollected := r2.collectibles.all (fun c => c.collected)
  ({ player := r1.player, enemies := es2, collectibles := r2.collectibles,
     obstacles := s.obstacles, score := r2.score, lives := r1.lives,
     isRunning := if allCollected then false else r1.running },
   r1.events ++ r2.events ++ (if allCollected then [GameEvent.gameWin] else []))

/-- A sequence of logic ticks, one per element of `kss` (the keys held
during that tick). -/
def ticksRun (w h : ℝ) : List (List String) → GameState → GameState
  | [], s => s
  | ks :: rest, s => ticksRun w h rest (update w h ks s).1

/-- The field assignments of `initializeGame`: fresh copies of every
entity from the scenario, `collected` reset to `false`, score 0, lives 3.
`initializeGame` does not touch the running flag, which is threaded in. -/
def initFields (gd : GameData) (running : Bool) : GameState :=
  { player := ⟨gd.player.x, gd.player.y, gd.player.size, gd.player.color⟩,
    enemies := gd.enemies,
    collectibles := gd.collectibles.map
      (fun c => ⟨c.x, c.y, c.size, c.color, c.points, false⟩),
    obstacles := gd.obstacles,
    score := 0, lives := 3, isRunning := running }

/-- `initializeGame`, acting on the current state. -/
def initializeGame (gd : GameData) (s : GameState) : GameState :=
  initFields gd s.isRunning

/-- The state of a freshly constructed engine (constructor runs
`initializeGame`; `isRunning` starts `false`). -/
def freshGame (gd : GameData) : GameState :=
  initFields gd false

/-- `start()`: a no-op when already running, otherwise sets the running
flag (and enters the game loop). -/
def startOp (s : GameState) : GameState :=
  if s.isRunning then s else { s with isRunning := true }

/-- `stop()`: clears the running flag (and cancels the pending frame). -/
def stopOp (s : GameState) : GameState :=
  { s with isRunning := false }

/-- `restart()`: `stop()`; `initializeGame()`; fire `onScoreChange` and
`onLivesChange` with the reset values; `start()`. -/
def restartOp (gd : GameData) (s : GameState) : GameState × List GameEvent :=
  let s1 := initializeGame gd (stopOp s)
  (startOp s1, [GameEvent.scoreChange s1.score, GameEvent.livesChange s1.lives])

/-- One stroked grid line of `drawBackground` (vertical at `x` spanning
the canvas height, or horizontal at `y` spanning the canvas width). -/
inductive BgCmd where
  | vline (x : ℕ)
  | hline (y : ℕ)
deriving DecidableEq

/-- The x (resp. y) coordinates visited by `for (x = 0; x < limit; x += 40)`. -/
def gridCoords (limit : ℕ) : List ℕ :=
  (List.range ((limit + 39) / 40)).map (fun i => 40 * i)

/-- `drawBackground`: the fixed grid pattern, vertical lines then
horizontal lines.  It reads only the canvas dimensions. -/
def drawBackground (w h : ℕ) : List BgCmd :=
  (gridCoords w).map BgCmd.vline ++ (gridCoords h).map BgCmd.hline

/-- The background pass of `render` for a session built on scenario `gd`
(the constructor sets the canvas size from the scenario). -/
def renderBackground (gd : GameData) : List BgCmd :=
  drawBackground gd.canvasWidth gd.canvasHeight

/-- A player at (100,100) of size 25 (the generator's player size). -/
def pl0 : Player := ⟨100, 100, 25, "#00ffff"⟩

/-- A stationary enemy of size 30 at (100,100), concentric with `pl0`. -/
def en0 : Enemy := ⟨100, 100, 30, "#ff0080", 0, 0⟩

/-- An uncollected collectible of 10 points at (100,100). -/
def col0 : Collectible := ⟨100, 100, 15, "#ffff00", 10, false⟩

/-- An already-collected collectible away from the player. -/
def colDone : Collectible := ⟨400, 300, 15, "#ffff00", 10, true⟩

/-- An obstacle far from the player. -/
def ob0 : Obstacle := ⟨300, 300, 50, 50, "#8000ff"⟩

/-- An obstacle whose center (100,100) coincides with `pl0`'s center. -/
def obC : Obstacle := ⟨75, 75, 50, 50, "#8000ff"⟩

/-- A player close to the left wall. -/
def pl4 : Player := ⟨15, 300, 25, "#00ffff"⟩

/-- A stationary enemy overlapping `pl4` near the left wall. -/
def en4 : Enemy := ⟨20, 300, 30, "#ff0080", 0, 0⟩

/-- Lives at 1, one enemy on the player, one uncollected collectible on
the player: the hit that empties lives also completes the collection. -/
def c1St : GameState := ⟨pl0, [en0], [col0], [], 0, 1, true⟩

/-- An obstacle-only state: no enemies, no collectibles. -/
def c2St : GameState := ⟨pl0, [], [], [ob0], 0, 3, true⟩

/-- Four enemies stacked on the player, lives at the initial 3. -/
def c3St : GameState := ⟨pl0, [en0, en0, en0, en0], [], [], 0, 3, true⟩

/-- The player near the left wall overlapping `en4`. -/
def c4St : GameState := ⟨pl4, [en4], [], [], 0, 3, true⟩

/-- The spec's concrete scenario: enemy of size 30 at (100,100), player of
size 25 at (100,100), lives 3. -/
def c7St : GameState := ⟨pl0, [en0], [], [], 0, 3, true⟩

/-- The player exactly concentric with obstacle `obC`. -/
def c7bSt : GameState := ⟨pl0, [], [], [obC], 0, 3, true⟩

/-- A state holding one already-collected collectible. -/
def c8St : GameState := ⟨pl0, [], [colDone], [], 10, 3, true⟩

/-- A mid-session idle state (stopped, score 5, lives 2). -/
def s6St : GameState := ⟨⟨50, 300, 25, "#00ffff"⟩, [], [], [], 5, 2, false⟩

/-- A running state used by the lifecycle witnesses. -/
def sRun : GameState := ⟨pl0, [], [], [], 0, 3, true⟩

/-- A minimal scenario with space-theme entity colors. -/
def gdSpace : GameData := ⟨⟨50, 300, "#00ffff", 25⟩, [], [], [], 800, 600⟩

/-- The same scenario layout with underwater-theme entity colors. -/
def gdUnder : GameData := ⟨⟨50, 300, "#00ff80", 25⟩, [], [], [], 800, 600⟩

/-- How one tick may change a collectible: every field except `collected`
is preserved, and `collected` never reverts from `true` to `false`. -/
def CollectPres (c c' : Collectible) : Prop :=
  c'.x = c.x ∧ c'.y = c.y ∧ c'.size = c.size ∧ c'.color = c.color ∧
    c'.points = c.points ∧ (c.collected = true → c'.collected = true)

lemma collectPres_refl (c : Collectible) : CollectPres c c := by
  simp [CollectPres]

lemma collectPres_trans {a b c : Collectible} (h1 : CollectPres a b)
    (h2 : CollectPres b c) : CollectPres a c := by
  obtain ⟨hx1, hy1, hs1, hc1, hp1, hb1⟩ := h1
  obtain ⟨hx2, hy2, hs2, hc2, hp2, hb2⟩ := h2
  exact ⟨hx2.trans hx1, hy2.trans hy1, hs2.trans hs1, hc2.trans hc1,
    hp2.trans hp1, fun h => hb2 (hb1 h)⟩

lemma forall₂_collectPres_trans {l1 l2 l3 : List Collectible}
    (h1 : List.Forall₂ CollectPres l1 l2) (h2 : List.Forall₂ CollectPres l2 l3) :
    List.Forall₂ CollectPres l1 l3 := by
  induction h1 generalizing l3 with
  | nil => cases h2; exact List.Forall₂.nil
  | cons hab _ ih =>
    cases h2 with
    | cons hbc h2' => exact List.Forall₂.cons (collectPres_trans hab hbc) (ih h2')

lemma movePlayer_nil (w h : ℝ) (p : Player) : movePlayer w h [] p = p := by
  simp [movePlayer, keyDown]

lemma updatePlayer_nil (w h : ℝ) (p : Player) :
    updatePlayer w h [] [] p = p := by
  simp [updatePlayer, movePlayer_nil]

lemma checkCircleCollision_concentric (x y s t : ℝ) (h : 0 < s + t) :
    checkCircleCollision x y s x y t := by
  unfold checkCircleCollision
  rw [show (x - x) * (x - x) + (y - y) * (y - y) = 0 by ring, Real.sqrt_zero]
  linarith

lemma pushFromEnemy_concentric (e : Enemy) (p : Player) (hx : p.x = e.x)
    (hy : p.y = e.y) : pushFromEnemy e p = p := by
  unfold pushFromEnemy
  rw [hx, hy]
  simp [sub_self, Real.sqrt_zero]

lemma moveEnemy_stationary (w h : ℝ) (e : Enemy) (hsx : e.speedX = 0)
    (hsy : e.speedY = 0) (hx1 : e.size / 2 < e.x) (hx2 : e.x < w - e.size / 2)
    (hy1 : e.size / 2 < e.y) (hy2 : e.y < h - e.size / 2) :
    moveEnemy w h e = e := by
  obtain ⟨x, y, size, color, sX, sY⟩ := e
  dsimp at hsx hsy hx1 hx2 hy1 hy2
  subst hsx; subst hsy
  unfold moveEnemy
  dsimp only
  rw [add_zero, add_zero, neg_zero, ite_self, ite_self,
    min_eq_right (le_of_lt hx2), max_eq_right (le_of_lt hx1),
    min_eq_right (le_of_lt hy2), max_eq_right (le_of_lt hy1)]

lemma enemyPhase_lives_le (es : List Enemy) (p : Player) (l : ℤ) (r : Bool) :
    (enemyPhase es p l r).lives ≤ l := by
  induction es generalizing p l r with
  | nil => simp [enemyPhase]
  | cons e rest ih =>
    unfold enemyPhase
    by_cases h1 : checkCircleCollision p.x p.y p.size e.x e.y e.size
    · rw [if_pos h1]
      by_cases h2 : l - 1 ≤ 0
      · rw [if_pos h2]; dsimp
        have := ih p (l - 1) false; omega
      · rw [if_neg h2]; dsimp
        have := ih (pushFromEnemy e p) (l - 1) r; omega
    · rw [if_neg h1]; exact ih p l r

lemma enemyPhase_no_win (es : List Enemy) (p : Player) (l : ℤ) (r : Bool) :
    GameEvent.gameWin ∉ (enemyPhase es p l r).events := by
  induction es generalizing p l r with
  | nil => simp [enemyPhase]
  | cons e rest ih =>
    unfold enemyPhase
    by_cases h1 : checkCircleCollision p.x p.y p.size e.x e.y e.size
    · rw [if_pos h1]
      by_cases h2 : l - 1 ≤ 0
      · rw [if_pos h2]; dsimp
        simp only [List.mem_cons]
        rintro (h | h | h) <;> first
          | exact GameEvent.noConfusion h
          | exact ih p (l - 1) false h
      · rw [if_neg h2]; dsimp
        simp only [List.mem_cons]
        rintro (h | h) <;> first
          | exact GameEvent.noConfusion h
          | exact ih (pushFromEnemy e p) (l - 1) r h
    · rw [if_neg h1]; exact ih p l r

lemma collectPhase_pres (p : Player) (cs : List Collectible) (sc : ℝ) :
    List.Forall₂ CollectPres cs (collectPhase p cs sc).collectibles := by
  induction cs generalizing sc with
  | nil => exact List.Forall₂.nil
  | cons c rest ih =>
    unfold collectPhase
    by_cases h : c.collected = false ∧
        checkCircleCollision p.x p.y p.size c.x c.y c.size
    · rw [if_pos h]; dsimp
      exact List.Forall₂.cons (by simp [CollectPres]) (ih _)
    · rw [if_neg h]; dsimp
      exact List.Forall₂.cons (collectPres_refl c) (ih _)

lemma collectPhase_no_win (p : Player) (cs : List Collectible) (sc : ℝ) :
    GameEvent.gameWin ∉ (collectPhase p cs sc).events := by
  induction cs generalizing sc with
  | nil => simp [collectPhase]
  | cons c rest ih =>
    unfold collectPhase
    by_cases h : c.collected = false ∧
        checkCircleCollision p.x p.y p.size c.x c.y c.size
    · rw [if_pos h]; dsimp
      simp only [List.mem_cons]
      rintro (h2 | h2)
      · exact GameEvent.noConfusion h2
      · exact ih _ h2
    · rw [if_neg h]; exact ih _

lemma collectPhase_score_mono (p : Player) (cs : List Collectible) (sc : ℝ)
    (hp : ∀ c ∈ cs, 0 ≤ c.points) : sc ≤ (collectPhase p cs sc).score := by
  induction cs generalizing sc with
  | nil => simp [collectPhase]
  | cons c rest ih =>
    unfold collectPhase
    have hc : 0 ≤ c.points := hp c (by simp)
    have hrest : ∀ x ∈ rest, 0 ≤ x.points := fun x hx => hp x (by simp [hx])
    by_cases h : c.collected = false ∧
        checkCircleCollision p.x p.y p.size c.x c.y c.size
    · rw [if_pos h]; dsimp
      have := ih (sc + c.points) hrest
      linarith
    · rw [if_neg h]; dsimp
      exact ih sc hrest

lemma forall₂_collectPres_points {l1 l2 : List Collectible}
    (h : List.Forall₂ CollectPres l1 l2) (hp : ∀ c ∈ l1, 0 ≤ c.points) :
    ∀ c ∈ l2, 0 ≤ c.points := by
  induction h with
  | nil => simp
  | cons hab h ih =>
    intro c hc
    rcases List.mem_cons.mp hc with rfl | hc
    · rw [hab.2.2.2.2.1]; exact hp _ (by simp)
    · exact ih (fun x hx => hp x (by simp [hx])) c hc

lemma update_lives_le (w h : ℝ) (ks : List String) (s : GameState) :
    (update w h ks s).1.lives ≤ s.lives := by
  unfold update
  dsimp only
  exact enemyPhase_lives_le _ _ _ _

lemma update_collectPres (w h : ℝ) (ks : List String) (s : GameState) :
    List.Forall₂ CollectPres s.collectibles (update w h ks s).1.collectibles := by
  unfold update
  dsimp only
  exact collectPhase_pres _ _ _

lemma update_score_mono (w h : ℝ) (ks : List String) (s : GameState)
    (hp : ∀ c ∈ s.collectibles, 0 ≤ c.points) :
    s.score ≤ (update w h ks s).1.score := by
  unfold update
  dsimp only
  exact collectPhase_score_mono _ _ _ hp

lemma update_win_mem_iff (w h : ℝ) (ks : List String) (s : GameState) :
    GameEvent.gameWin ∈ (update w h ks s).2 ↔
      (update w h ks s).1.collectibles.all (fun c => c.collected) = true := by
  unfold update
  dsimp only
  rw [List.mem_append, List.mem_append]
  by_cases hall : ((collectPhase
      (enemyPhase (updateEnemies w h s.enemies)
        (updatePlayer w h ks s.obstacles s.player) s.lives s.isRunning).player
      s.collectibles s.score).collectibles.all (fun c => c.collected)) = true
  · simp [hall]
  · simp [hall, enemyPhase_no_win, collectPhase_no_win]

lemma ticksRun_lives_le (w h : ℝ) (kss : List (List String)) (s : GameState) :
    (ticksRun w h kss s).lives ≤ s.lives := by
  induction kss generalizing s with
  | nil => simp [ticksRun]
  | cons ks rest ih =>
    unfold ticksRun
    exact le_trans (ih _) (update_lives_le w h ks s)

lemma ticksRun_collectPres (w h : ℝ) (kss : List (List String)) (s : GameState) :
    List.Forall₂ CollectPres s.collectibles (ticksRun w h kss s).collectibles := by
  induction kss generalizing s with
  | nil =>
    unfold ticksRun
    exact List.forall₂_same.mpr (fun c _ => collectPres_refl c)
  | cons ks rest ih =>
    unfold ticksRun
    exact forall₂_collectPres_trans (update_collectPres w h ks s) (ih _)

lemma ticksRun_score_mono (w h : ℝ) (kss : List (List String)) (s : GameState)
    (hp : ∀ c ∈ s.collectibles, 0 ≤ c.points) :
    s.score ≤ (ticksRun w h kss s).score := by
  induction kss generalizing s with
  | nil => simp [ticksRun]
  | cons ks rest ih =>
    unfold ticksRun
    refine le_trans (update_score_mono w h ks s hp) (ih _ ?_)
    exact forall₂_collectPres_points (update_collectPres w h ks s) hp

lemma moveEnemy_en0 : moveEnemy 800 600 en0 = en0 :=
  moveEnemy_stationary 800 600 en0 rfl rfl (by norm_num [en0])
    (by norm_num [en0]) (by norm_num [en0]) (by norm_num [en0])

lemma moveEnemy_en4 : moveEnemy 800 600 en4 = en4 :=
  moveEnemy_stationary 800 600 en4 rfl rfl (by norm_num [en4])
    (by norm_num [en4]) (by norm_num [en4]) (by norm_num [en4])

lemma hit_pl0_en0 : checkCircleCollision pl0.x pl0.y pl0.size en0.x en0.y en0.size :=
  checkCircleCollision_concentric 100 100 25 30 (by norm_num)

lemma push_pl0_en0 : pushFromEnemy en0 pl0 = pl0 :=
  pushFromEnemy_concentric en0 pl0 rfl rfl

lemma enemyPhase_c7 : enemyPhase [en0] pl0 3 true =
    ⟨pl0, 2, true, [GameEvent.livesChange 2]⟩ := by
  norm_num [enemyPhase, hit_pl0_en0, push_pl0_en0]

lemma enemyPhase_c1 : enemyPhase [en0] pl0 1 true =
    ⟨pl0, 0, false, [GameEvent.livesChange 0, GameEvent.gameOver]⟩ := by
  norm_num [enemyPhase, hit_pl0_en0, push_pl0_en0]

lemma enemyPhase_c3 : enemyPhase [en0, en0, en0, en0] pl0 3 true =
    ⟨pl0, -1, false,
      [GameEvent.livesChange 2, GameEvent.livesChange 1, GameEvent.livesChange 0,
        GameEvent.gameOver, GameEvent.livesChange (-1), GameEvent.gameOver]⟩ := by
  norm_num [enemyPhase, hit_pl0_en0, push_pl0_en0]

lemma hit_pl0_col0 : checkCircleCollision pl0.x pl0.y pl0.size 100 100 15 :=
  checkCircleCollision_concentric 100 100 25 15 (by norm_num)

lemma collectPhase_c1 : collectPhase pl0 [col0] 0 =
    ⟨[⟨100, 100, 15, "#ffff00", 10, true⟩], 10, [GameEvent.scoreChange 10]⟩ := by
  norm_num [collectPhase, hit_pl0_col0, col0]

lemma hit_pl4_en4 : checkCircleCollision pl4.x pl4.y pl4.size en4.x en4.y en4.size := by
  show checkCircleCollision 15 300 25 20 300 30
  unfold checkCircleCollision
  rw [Real.sqrt_lt' (by norm_num)]
  norm_num

lemma sqrt_25_eq : Real.sqrt 25 = 5 := by
  rw [show (25 : ℝ) = 5 ^ 2 by norm_num]
  exact Real.sqrt_sq (by norm_num)

lemma push_pl4_en4 : pushFromEnemy en4 pl4 = ⟨-30, 300, 25, "#00ffff"⟩ := by
  norm_num [pushFromEnemy, pl4, en4, sqrt_25_eq]

lemma enemyPhase_c4 : enemyPhase [en4] pl4 3 true =
    ⟨⟨-30, 300, 25, "#00ffff"⟩, 2, true, [GameEvent.livesChange 2]⟩ := by
  norm_num [enemyPhase, hit_pl4_en4, push_pl4_en4]

lemma no_hit_ob0_pl0 : ¬ checkRectCircleCollision ob0 pl0.x pl0.y pl0.size := by
  norm_num [checkRectCircleCollision, ob0, pl0, min_def, max_def]

lemma pushObs_ob0 : pushFromObstacle ob0 pl0 = pl0 := by
  rw [pushFromObstacle, if_neg no_hit_ob0_pl0]

lemma hit_obC_pl0 : checkRectCircleCollision obC pl0.x pl0.y pl0.size := by
  norm_num [checkRectCircleCollision, obC, pl0, min_def, max_def]

lemma pushObs_obC : pushFromObstacle obC pl0 = pl0 := by
  rw [pushFromObstacle, if_pos hit_obC_pl0]
  norm_num [obC, pl0, Real.sqrt_zero]

lemma updateEnemies_c7 : updateEnemies 800 600 [en0] = [en0] := by
  simp [updateEnemies, moveEnemy_en0]

lemma updateEnemies_c3 : updateEnemies 800 600 [en0, en0, en0, en0] =
    [en0, en0, en0, en0] := by
  simp [updateEnemies, moveEnemy_en0]

lemma updateEnemies_c4 : updateEnemies 800 600 [en4] = [en4] := by
  simp [updateEnemies, moveEnemy_en4]

lemma updatePlayer_c2 : updatePlayer 800 600 [] [ob0] pl0 = pl0 := by
  simp [updatePlayer, movePlayer_nil, pushObs_ob0]

lemma updatePlayer_c7b : updatePlayer 800 600 [] [obC] pl0 = pl0 := by
  simp [updatePlayer, movePlayer_nil, pushObs_obC]

lemma c1_eval : update 800 600 [] c1St =
    (⟨pl0, [en0], [⟨100, 100, 15, "#ffff00", 10, true⟩], [], 10, 0, false⟩,
      [GameEvent.livesChange 0, GameEvent.gameOver, GameEvent.scoreChange 10,
        GameEvent.gameWin]) := by
  unfold update c1St
  dsimp only
  rw [updatePlayer_nil, updateEnemies_c7, enemyPhase_c1]
  dsimp only
  rw [collectPhase_c1]
  simp

lemma c2_eval : update 800 600 [] c2St =
    (⟨pl0, [], [], [ob0], 0, 3, false⟩, [GameEvent.gameWin]) := by
  unfold update c2St
  dsimp only
  rw [updatePlayer_c2]
  simp [updateEnemies, enemyPhase, collectPhase]

lemma c3_eval : update 800 600 [] c3St =
    (⟨pl0, [en0, en0, en0, en0], [], [], 0, -1, false⟩,
      [GameEvent.livesChange 2, GameEvent.livesChange 1, GameEvent.livesChange 0,
        GameEvent.gameOver, GameEvent.livesChange (-1), GameEvent.gameOver,
        GameEvent.gameWin]) := by
  unfold update c3St
  dsimp only
  rw [updatePlayer_nil, updateEnemies_c3, enemyPhase_c3]
  simp [collectPhase]

lemma c4_eval : update 800 600 [] c4St =
    (⟨⟨-30, 300, 25, "#00ffff"⟩, [en4], [], [], 0, 2, false⟩,
      [GameEvent.livesChange 2, GameEvent.gameWin]) := by
  unfold update c4St
  dsimp only
  rw [updatePlayer_nil, updateEnemies_c4, enemyPhase_c4]
  simp [collectPhase]

lemma c7_eval : update 800 600 [] c7St =
    (⟨pl0, [en0], [], [], 0, 2, false⟩,
      [GameEvent.livesChange 2, GameEvent.gameWin]) := by
  unfold update c7St
  dsimp only
  rw [updatePlayer_nil, updateEnemies_c7, enemyPhase_c7]
  simp [collectPhase]

lemma c7b_eval : update 800 600 [] c7bSt =
    (⟨pl0, [], [], [obC], 0, 3, false⟩, [GameEvent.gameWin]) := by
  unfold update c7bSt
  dsimp only
  rw [updatePlayer_c7b]
  simp [updateEnemies, enemyPhase, collectPhase]

lemma c8_eval : update 800 600 [] c8St =
    (⟨pl0, [], [⟨400, 300, 15, "#ffff00", 10, true⟩], [], 10, 3, false⟩,
      [GameEvent.gameWin]) := by
  unfold update c8St
  dsimp only
  rw [updatePlayer_nil]
  simp [updateEnemies, enemyPhase, collectPhase, colDone]

lemma moveEnemy_bounds (w h : ℝ) (e : Enemy) (hw : e.size ≤ w) (hh : e.size ≤ h) :
    (moveEnemy w h e).size / 2 ≤ (moveEnemy w h e).x ∧
      (moveEnemy w h e).x ≤ w - (moveEnemy w h e).size / 2 ∧
      (moveEnemy w h e).size / 2 ≤ (moveEnemy w h e).y ∧
      (moveEnemy w h e).y ≤ h - (moveEnemy w h e).size / 2 := by
  unfold moveEnemy
  dsimp only
  exact ⟨le_max_left _ _, max_le (by linarith) (min_le_left _ _),
    le_max_left _ _, max_le (by linarith) (min_le_left _ _)⟩

/-- Claim C1 (counterexample): in the state `c1St` (lives 1, an enemy on
the player, an uncollected collectible on the player) a single tick fires
lives-changed 0 and game-over, and then STILL fires score-changed and
game-won: the collectible check and the win check are not skipped after
the loss, contradicting the claimed immediate halt. -/
theorem C1_counterexample : (update 800 600 [] c1St).2 =
    [GameEvent.livesChange 0, GameEvent.gameOver, GameEvent.scoreChange 10,
      GameEvent.gameWin] := by
  rw [c1_eval]

/-- Claim C1 (amended): when a hit drops lives to 0 the session is marked
lost and game-over fires, but the step does not halt: the remaining
collision checks and the win check still run that tick, so whenever every
collectible ends the tick collected, game-won is also reported — even in a
tick that reported game-over. -/
theorem C1_theorem (w h : ℝ) (ks : List String) (s : GameState)
    (_hover : GameEvent.gameOver ∈ (update w h ks s).2)
    (hall : (update w h ks s).1.collectibles.all (fun c => c.collected) = true) :
    GameEvent.gameWin ∈ (update w h ks s).2 :=
  (update_win_mem_iff w h ks s).mpr hall

/-- Witness for C1: the state `c1St` realises both hypotheses — the tick
reports game-over and ends with every collectible collected — and the
conclusion. -/
theorem C1_witness :
    GameEvent.gameOver ∈ (update 800 600 [] c1St).2 ∧
      (update 800 600 [] c1St).1.collectibles.all (fun c => c.collected) = true ∧
      GameEvent.gameWin ∈ (update 800 600 [] c1St).2 := by
  have h1 : GameEvent.gameOver ∈ (update 800 600 [] c1St).2 := by
    rw [c1_eval]; simp
  have h2 : (update 800 600 [] c1St).1.collectibles.all
      (fun c => c.collected) = true := by
    rw [c1_eval]; simp
  exact ⟨h1, h2, C1_theorem 800 600 [] c1St h1 h2⟩

/-- Claim C2 (counterexample): in the obstacle-only state `c2St` (empty
enemy and collectible arrays) the very first tick fires game-won —
`every` on an empty array is vacuously true — and clears the running
flag, contradicting both the claimed lives-condition on wins and the
claimed non-termination of obstacle-only scenarios. -/
theorem C2_counterexample :
    (update 800 600 [] c2St).2 = [GameEvent.gameWin] ∧
      (update 800 600 [] c2St).1.isRunning = false := by
  rw [c2_eval]
  exact ⟨rfl, rfl⟩

/-- Claim C2 (amended): the game-won notification fires in a tick if and
only if every collectible is collected at the end of that tick —
vacuously so for an empty collectible array, and regardless of the lives
count; in particular an obstacle-only scenario wins, and stops, on its
first tick. -/
theorem C2_theorem (w h : ℝ) (ks : List String) (s : GameState) :
    GameEvent.gameWin ∈ (update w h ks s).2 ↔
      (update w h ks s).1.collectibles.all (fun c => c.collected) = true :=
  update_win_mem_iff w h ks s

/-- Claim C3 (counterexample): from the freshly-initialized lives value 3,
one tick of state `c3St` (four enemies stacked on the player) drives lives
to −1: lives is decremented once per overlapping enemy with no clamp at 0. -/
theorem C3_counterexample :
    c3St.lives = 3 ∧ (update 800 600 [] c3St).1.lives = -1 ∧
      (update 800 600 [] c3St).1.lives < 0 := by
  refine ⟨rfl, by rw [c3_eval], by rw [c3_eval]; norm_num⟩

/-- Claim C3 (amended): across any sequence of ticks score is
monotonically non-decreasing (given non-negative point values) and lives
is monotonically non-increasing, and lives starts at 3; but lives is NOT
clamped at 0 — it can become negative when several enemies overlap the
player in one tick. -/
theorem C3_theorem (w h : ℝ) (kss : List (List String)) (s : GameState)
    (gd : GameData) (hp : ∀ c ∈ s.collectibles, 0 ≤ c.points) :
    s.score ≤ (ticksRun w h kss s).score ∧
      (ticksRun w h kss s).lives ≤ s.lives ∧ (freshGame gd).lives = 3 :=
  ⟨ticksRun_score_mono w h kss s hp, ticksRun_lives_le w h kss s, rfl⟩

/-- Witness for C3 at the concrete state `c1St` and a one-tick run. -/
theorem C3_witness :
    (∀ c ∈ c1St.collectibles, 0 ≤ c.points) ∧
      (c1St.score ≤ (ticksRun 800 600 [[]] c1St).score ∧
        (ticksRun 800 600 [[]] c1St).lives ≤ c1St.lives ∧
        (freshGame gdSpace).lives = 3) := by
  have hp : ∀ c ∈ c1St.collectibles, 0 ≤ c.points := by
    simp [c1St, col0]
  exact ⟨hp, C3_theorem 800 600 [[]] c1St gdSpace hp⟩

/-- Claim C4 (counterexample): in state `c4St` the enemy push places the
player at x = −30, strictly below the claimed lower bound `size/2` —
push resolution is not followed by any clamping. -/
theorem C4_counterexample :
    (update 800 600 [] c4St).1.player.x <
      (update 800 600 [] c4St).1.player.size / 2 := by
  rw [c4_eval]
  norm_num

/-- Claim C4 (amended): after every tick each ENEMY's position lies within
`[size/2, arenaDimension - size/2]` on both axes (for enemies that fit in
the arena); the player obeys the bounds only up to its clamped movement —
the obstacle-push and enemy-push resolutions are unclamped and can place
the player outside the arena. -/
theorem C4_theorem (w h : ℝ) (ks : List String) (s : GameState)
    (hb : ∀ e ∈ s.enemies, e.size ≤ w ∧ e.size ≤ h) :
    ∀ e ∈ (update w h ks s).1.enemies,
      e.size / 2 ≤ e.x ∧ e.x ≤ w - e.size / 2 ∧
        e.size / 2 ≤ e.y ∧ e.y ≤ h - e.size / 2 := by
  intro e he
  have hev : (update w h ks s).1.enemies = updateEnemies w h s.enemies := rfl
  rw [hev] at he
  unfold updateEnemies at he
  rcases List.mem_map.mp he with ⟨e0, he0, rfl⟩
  exact moveEnemy_bounds w h e0 (hb e0 he0).1 (hb e0 he0).2

/-- Witness for C4 at the concrete state `c7St`. -/
theorem C4_witness :
    (∀ e ∈ c7St.enemies, e.size ≤ 800 ∧ e.size ≤ 600) ∧
      (∀ e ∈ (update 800 600 [] c7St).1.enemies,
        e.size / 2 ≤ e.x ∧ e.x ≤ 800 - e.size / 2 ∧
          e.size / 2 ≤ e.y ∧ e.y ≤ 600 - e.size / 2) := by
  have hb : ∀ e ∈ c7St.enemies, e.size ≤ 800 ∧ e.size ≤ 600 := by
    simp [c7St, en0]
    norm_num
  exact ⟨hb, C4_theorem 800 600 [] c7St hb⟩

/-- Claim C5: `restart()` after any state restores score 0, lives 3 and
all-uncollected collectibles, its simulation state (player, enemies,
collectibles, obstacles) equals that of a freshly initialized session on
the same scenario, and it re-fires the score-changed and lives-changed
notifications with the reset values 0 and 3. -/
theorem C5_theorem (gd : GameData) (s : GameState) :
    (restartOp gd s).1.player = (freshGame gd).player ∧
      (restartOp gd s).1.enemies = (freshGame gd).enemies ∧
      (restartOp gd s).1.collectibles = (freshGame gd).collectibles ∧
      (restartOp gd s).1.obstacles = (freshGame gd).obstacles ∧
      (restartOp gd s).1.score = 0 ∧
      (restartOp gd s).1.lives = 3 ∧
      (∀ c ∈ (restartOp gd s).1.collectibles, c.collected = false) ∧
      (restartOp gd s).2 =
        [GameEvent.scoreChange 0, GameEvent.livesChange 3] := by
  unfold restartOp initializeGame stopOp startOp freshGame initFields
  dsimp only
  refine ⟨rfl, rfl, rfl, rfl, rfl, rfl, ?_, rfl⟩
  intro c hc
  rcases List.mem_map.mp hc with ⟨c0, _, rfl⟩
  rfl

/-- Claim C6 (counterexample): `restart()` on the idle mid-session state
`s6St` (stopped, score 5) is not a no-op — it reinitializes the state. -/
theorem C6_counterexample :
    s6St.isRunning = false ∧ (restartOp gdSpace s6St).1 ≠ s6St := by
  refine ⟨rfl, fun hEq => ?_⟩
  have h0 : (restartOp gdSpace s6St).1.score = 0 := rfl
  have h5 : s6St.score = 5 := rfl
  rw [hEq, h5] at h0
  norm_num at h0

/-- Claim C6 (amended): `start()` while running is a no-op and `stop()`
while idle is a no-op, but `restart()` while idle is NOT a no-op: it
reinitializes the simulation state, fires the reset notifications and
starts the session. -/
theorem C6_theorem (s : GameState) :
    (s.isRunning = true → startOp s = s) ∧
      (s.isRunning = false → stopOp s = s) := by
  constructor
  · intro hr
    unfold startOp
    rw [hr]
    rfl
  · intro hr
    cases s
    dsimp at hr
    subst hr
    rfl

/-- Witness for C6: a running state for the `start()` branch and an idle
state for the `stop()` branch. -/
theorem C6_witness :
    (sRun.isRunning = true ∧ startOp sRun = sRun) ∧
      (s6St.isRunning = false ∧ stopOp s6St = s6St) :=
  ⟨⟨rfl, (C6_theorem sRun).1 rfl⟩, ⟨rfl, (C6_theorem s6St).2 rfl⟩⟩

/-- Claim C7: the spec's degenerate-geometry scenario — enemy of size 30
at (100,100), player of size 25 at (100,100): the concentric overlap
registers a hit (distance 0 < 27.5), lives goes from 3 to 2 with the
lives-changed notification, and the player is left unpushed (zero-length
push vector); likewise a player concentric with an obstacle's center is
left unmoved, with no division by zero. -/
theorem C7_theorem :
    c7St.lives = 3 ∧
      (update 800 600 [] c7St).1.lives = 2 ∧
      GameEvent.livesChange 2 ∈ (update 800 600 [] c7St).2 ∧
      (update 800 600 [] c7St).1.player.x = 100 ∧
      (update 800 600 [] c7St).1.player.y = 100 ∧
      (update 800 600 [] c7bSt).1.player.x = 100 ∧
      (update 800 600 [] c7bSt).1.player.y = 100 := by
  rw [c7_eval, c7b_eval]
  refine ⟨rfl, rfl, by simp, rfl, rfl, rfl, rfl⟩

/-- Claim C8: across any sequence of ticks, each collectible keeps its
position, size, color and point value, and its `collected` flag never
transitions back from `true` to `false`. -/
theorem C8_theorem (w h : ℝ) (kss : List (List String)) (s : GameState)
    (i : ℕ) (hi : i < s.collectibles.length) :
    ∃ hj : i < (ticksRun w h kss s).collectibles.length,
      CollectPres (s.collectibles.get ⟨i, hi⟩)
        ((ticksRun w h kss s).collectibles.get ⟨i, hj⟩) := by
  have hF := ticksRun_collectPres w h kss s
  have hlen := hF.length_eq
  exact ⟨hlen ▸ hi, hF.get hi (hlen ▸ hi)⟩

/-- Witness for C8: one tick on a state holding one collected collectible. -/
theorem C8_witness :
    ∃ hi : 0 < c8St.collectibles.length,
      ∃ hj : 0 < (ticksRun 800 600 [[]] c8St).collectibles.length,
        CollectPres (c8St.collectibles.get ⟨0, hi⟩)
          ((ticksRun 800 600 [[]] c8St).collectibles.get ⟨0, hj⟩) := by
  have hi : 0 < c8St.collectibles.length := by simp [c8St]
  exact ⟨hi, C8_theorem 800 600 [[]] c8St 0 hi⟩

/-- Claim C9 (counterexample): two scenarios that differ (space-colored vs
underwater-colored entities) produce the identical background drawing —
the renderer has no theme dispatch and `GameData` carries no theme
identifier, contradicting the claimed five theme-specific backgrounds. -/
theorem C9_counterexample :
    gdSpace.player.color ≠ gdUnder.player.color ∧
      renderBackground gdSpace = renderBackground gdUnder :=
  ⟨by decide, rfl⟩

/-- Claim C9 (amended): the per-tick background drawing is one fixed grid
determined solely by the canvas dimensions; it does not depend on any
other scenario content, and no theme-specific background exists in the
renderer. -/
theorem C9_theorem (gd1 gd2 : GameData) (hw : gd1.canvasWidth = gd2.canvasWidth)
    (hh : gd1.canvasHeight = gd2.canvasHeight) :
    renderBackground gd1 = renderBackground gd2 := by
  unfold renderBackground
  rw [hw, hh]

/-- Witness for C9 at the two concrete scenarios. -/
theorem C9_witness :
    gdSpace.canvasWidth = gdUnder.canvasWidth ∧
      gdSpace.canvasHeight = gdUnder.canvasHeight ∧
      renderBackground gdSpace = renderBackground gdUnder :=
  ⟨rfl, rfl, C9_theorem gdSpace gdUnder rfl rfl⟩

/-- Claim C10: the logic step is deterministic — two runs from states that
agree on player, enemies, collectibles, obstacles, score, lives and the
running flag, with the same held keys, produce equal states and fire the
same callbacks in the same order with the same arguments. -/
theorem C10_theorem (w h : ℝ) (ks1 ks2 : List String) (s1 s2 : GameState)
    (hpl : s1.player = s2.player) (hen : s1.enemies = s2.enemies)
    (hco : s1.collectibles = s2.collectibles)
    (hob : s1.obstacles = s2.obstacles) (hsc : s1.score = s2.score)
    (hlv : s1.lives = s2.lives) (hrn : s1.isRunning = s2.isRunning)
    (hks : ks1 = ks2) : update w h ks1 s1 = update w h ks2 s2 := by
  cases s1
  cases s2
  dsimp at hpl hen hco hob hsc hlv hrn
  subst hpl; subst hen; subst hco; subst hob; subst hsc; subst hlv
  subst hrn; subst hks
  rfl

/-- Witness for C10 at the concrete state `c7St`. -/
theorem C10_witness : update 800 600 [] c7St = update 800 600 [] c7St :=
  C10_theorem 800 600 [] [] c7St c7St rfl rfl rfl rfl rfl rfl rfl rfl

end GameForge
